import Mathlib

/-!
Shallow embedding of `src/terminal/terminal_manager.py` (class `TerminalManager`).

Python strings are modelled as `List Char`.  Side-effecting parts
(pty reads, process control) are modelled by passing explicit environments
that record the outcome of each system interaction, and by explicit
state records for the session fields of the manager.
-/

namespace VkTerminal

/-- The Python exception kinds raised or caught in `terminal_manager.py`.
`timeoutError` and `blockingIOError` are subclasses of `OSError` in Python
(3.3+), which matters for `except (OSError, RuntimeError)` clauses. -/
inductive PyExc where
  | timeoutError
  | blockingIOError
  | osError
  | runtimeError
  | otherError
deriving DecidableEq, Repr

/-- Python subclass fact: which exception kinds an `except OSError` clause
catches (`TimeoutError` and `BlockingIOError` are `OSError` subclasses). -/
def isOSError : PyExc → Bool
  | .timeoutError => true
  | .blockingIOError => true
  | .osError => true
  | _ => false

/-! ### Output Cleaner (`_clean_output`, lines 358-380) -/

/-- The characters Python's `str.splitlines` treats as line boundaries. -/
def isLineBreak (c : Char) : Bool :=
  c = '\n' || c = '\r' || c = '\x0B' || c = '\x0C' ||
  c = '\x1C' || c = '\x1D' || c = '\x1E' || c = '\u0085' ||
  c = '\u2028' || c = '\u2029'

/-- Worker for `splitlines`: `acc` holds the current line reversed.
`\r\n` counts as a single boundary; a trailing boundary produces no
trailing empty line, matching Python `str.splitlines`. -/
def splitlinesAux : List Char → List Char → List (List Char)
  | [], acc => if acc.isEmpty then [] else [acc.reverse]
  | '\r' :: '\n' :: rest, acc => acc.reverse :: splitlinesAux rest []
  | c :: rest, acc =>
    if isLineBreak c then acc.reverse :: splitlinesAux rest []
    else splitlinesAux rest (c :: acc)

/-- Python `str.splitlines()`. -/
def splitlines (l : List Char) : List (List Char) := splitlinesAux l []

/-- Whitespace characters removed by Python `str.strip()` (ASCII whitespace
plus the common Unicode whitespace code points). -/
def isPySpace (c : Char) : Bool :=
  c = ' ' || c = '\t' || c = '\n' || c = '\r' || c = '\x0B' || c = '\x0C' ||
  c = '\x1C' || c = '\x1D' || c = '\x1E' || c = '\x1F' ||
  c = '\u0085' || c = '\u00A0' || c = '\u2028' || c = '\u2029'

/-- Python `str.strip()`: remove leading and trailing whitespace. -/
def pyStrip (l : List Char) : List Char :=
  ((l.dropWhile isPySpace).reverse.dropWhile isPySpace).reverse

/-- Python's `needle in hay` on strings: contiguous-substring test. -/
def containsSub (needle : List Char) : List Char → Bool
  | [] => needle.isEmpty
  | c :: rest => needle.isPrefixOf (c :: rest) || containsSub needle rest

/-- `self.prompt_markers` (line 35). -/
def prompt_markers : List (List Char) := [['$', ' '], ['#', ' '], ['>', ' ']]

/-- The escape character `\x1B`. -/
def escChar : Char := Char.ofNat 27

/-- Character class `[@-Z\\-_]` of the first regex alternative:
`0x40-0x5A` plus `0x5C-0x5F` (the escaped `\\` followed by `-_` is the
range backslash..underscore). -/
def inClass1 (c : Char) : Bool :=
  (0x40 ≤ c.toNat && c.toNat ≤ 0x5A) || (0x5C ≤ c.toNat && c.toNat ≤ 0x5F)

/-- Character class of intermediate bytes 0x20-0x2F (space through slash)
in the second alternative. -/
def inIntermediate (c : Char) : Bool := 0x20 ≤ c.toNat && c.toNat ≤ 0x2F

/-- Character class `[@-~]` (0x40-0x7E) of the second alternative. -/
def inFinal (c : Char) : Bool := 0x40 ≤ c.toNat && c.toNat ≤ 0x7E

/-- Try to match the regex suffix star-of-intermediates followed by one
final byte, greedily, at the head of `l`, returning the number of
characters consumed.  The intermediate and final classes are disjoint, so
backtracking the star can never turn a failure into a success and the
greedy run is exact. -/
def matchRunFinal (l : List Char) : Option Nat :=
  let run := l.takeWhile inIntermediate
  match l.drop run.length with
  | c :: _ => if inFinal c then some (run.length + 1) else none
  | [] => none

/-- Lazy matcher for the regex tail: lazy dot-star, then intermediates,
then a final byte.  At each position first try `matchRunFinal`,
otherwise extend the lazy dot by one non-newline
character (Python `.` does not match `\n`).  Returns characters consumed. -/
def matchCsiTail : List Char → Option Nat
  | [] => none
  | c :: rest =>
    match matchRunFinal (c :: rest) with
    | some k => some k
    | none =>
      if c = '\n' then none
      else Option.map (fun k => k + 1) (matchCsiTail rest)

/-- Match the `ansi_escape` regex of line 364 (alternation of escape plus
one class-1 byte, or escape, optional bracket, lazy dot-star,
intermediates, final byte) at the head of the list, returning the length
of the match.  The first
alternative is tried first; in the second, the greedy optional `\[` is
tried with the bracket consumed first, then without. -/
def matchEscape : List Char → Option Nat
  | e :: d :: rest =>
    if e = escChar then
      if inClass1 d then some 2
      else if d = '[' then
        match matchCsiTail rest with
        | some k => some (2 + k)
        | none => Option.map (fun k => k + 1) (matchCsiTail (d :: rest))
      else Option.map (fun k => k + 1) (matchCsiTail (d :: rest))
    else none
  | _ => none

/-- `ansi_escape.sub('', output)` (line 365): scan for leftmost matches of
the escape-sequence regex and delete them.  Only `\x1B` can start a match,
so other characters are kept directly.  A successful match has length at
least 2, so dropping `n - 1` characters of the tail skips exactly the
matched span. -/
def stripAnsiFuel : Nat → List Char → List Char
  | 0, _ => []
  | _ + 1, [] => []
  | fuel + 1, c :: rest =>
    match matchEscape (c :: rest) with
    | some n => stripAnsiFuel fuel (rest.drop (n - 1))
    | none => c :: stripAnsiFuel fuel rest

/-- The regex substitution applied to the whole text.  Every scan step
consumes at least one character (a successful match has length at least
2), so fuel equal to the length of the text never runs out. -/
def stripAnsi (l : List Char) : List Char := stripAnsiFuel l.length l

/-- `'\n'.join(cleaned)` (line 380). -/
def joinNL : List (List Char) → List Char := List.intercalate ['\n']

/-- The per-line filter of lines 374-378: strip each line, keep it when it
is non-empty and contains no prompt marker. -/
def keptLines (lines : List (List Char)) : List (List Char) :=
  (lines.map pyStrip).filter fun line =>
    !line.isEmpty && prompt_markers.all fun m => !containsSub m line

/-- `_clean_output(command, output)` (lines 358-380): empty output short
circuit, escape stripping, splitlines, echo-line drop when the first line
contains the command text, then per-line strip-and-filter joined by
newlines. -/
def clean_output (command output : List Char) : List Char :=
  if output.isEmpty then []
  else
    let lines := splitlines (stripAnsi output)
    let lines2 :=
      match lines with
      | first :: rest => if containsSub command first then rest else lines
      | [] => lines
    joinNL (keptLines lines2)

/-! ### Output Reader (`_read_terminal_output`, lines 171-225)

Time is modelled in ticks of 0.1 seconds (the value of `READ_TIMEOUT`),
starting at 0 when the loop begins, so `asyncio.sleep(self.READ_TIMEOUT)`
advances the clock by exactly one tick, the 2-second quiescence window is
20 ticks and a `timeout` of `n` seconds is `10 * n` ticks.  Reads
themselves take no model time.  Chunks are modelled as lists of already
decoded characters: the UTF-8 byte buffer of the source always decodes
successfully in this model, so `buffer` is emptied on every successful
read; the buffer field and its final flush are kept to mirror the code. -/

/-- Outcome of one `os.read` call on the non-blocking master descriptor:
a non-empty chunk of data, a zero-byte return, a raised
`BlockingIOError` (the would-block condition), or another `OSError`. -/
inductive ReadEvent where
  | chunk (data : List Char)
  | empty
  | blockEx
  | osErr
deriving DecidableEq, Repr

/-- Loop state of `_read_terminal_output`: current time `t` in ticks,
`lastRead` = `last_read_time`, `retry` = `retry_count`, `chunks` =
`output_chunks`, `buffer`, and the timed events `pending` that the
terminal will deliver (an event scheduled at time `d` is seen by the
first read at a time `≥ d`; with nothing due, a non-blocking read
raises the would-block condition). -/
structure ReadState where
  t : Nat
  lastRead : Nat
  retry : Nat
  chunks : List (List Char)
  buffer : List Char
  pending : List (Nat × ReadEvent)
deriving DecidableEq, Repr

/-- Initial loop state over a schedule of timed read events. -/
def initRead (pending : List (Nat × ReadEvent)) : ReadState :=
  ⟨0, 0, 0, [], [], pending⟩

/-- What `os.read` yields at time `t` given the pending schedule: the first
scheduled event whose time is due is consumed; otherwise the read raises
the would-block condition. -/
def takeEvent (t : Nat) : List (Nat × ReadEvent) → ReadEvent × List (Nat × ReadEvent)
  | [] => (.blockEx, [])
  | (d, e) :: rest => if d ≤ t then (e, rest) else (.blockEx, (d, e) :: rest)

/-- Result of one iteration of the `while True` loop: raise an exception,
leave the loop (`break`), or continue with a new state. -/
inductive StepRes where
  | raised (e : PyExc) (s : ReadState)
  | finish (s : ReadState)
  | next (s : ReadState)
deriving DecidableEq, Repr

/-- One iteration of the read loop (lines 182-219), with `tt` the timeout
in ticks: absolute-timeout check (raise `TimeoutError` when nothing was
received, else `break`); quiescence check (`current - last_read > 2`
with data received → `break`); then the read.  A data chunk extends the
buffer, appends the decoded text, resets `retry` and refreshes
`last_read_time` without sleeping.  A zero-byte read increments
`retry_count` and, at the 50-retry budget, raises `RuntimeError` if
nothing was ever received and otherwise breaks; below the budget it
sleeps one tick.  A would-block exception only sleeps one tick.  Any
other `OSError` breaks out of the loop. -/
def readStep (tt : Nat) (s : ReadState) : StepRes :=
  if tt < s.t then
    if s.chunks.isEmpty then .raised .timeoutError s else .finish s
  else if 20 < s.t - s.lastRead && !s.chunks.isEmpty then .finish s
  else
    match takeEvent s.t s.pending with
    | (.chunk c, p) =>
      .next { s with
              pending := p
              buffer := []
              chunks := s.chunks ++ [s.buffer ++ c]
              lastRead := s.t
              retry := 0 }
    | (.empty, p) =>
      if 50 ≤ s.retry + 1 then
        if s.chunks.isEmpty then .raised .runtimeError { s with retry := s.retry + 1, pending := p }
        else .finish { s with retry := s.retry + 1, pending := p }
      else .next { s with retry := s.retry + 1, pending := p, t := s.t + 1 }
    | (.blockEx, p) => .next { s with pending := p, t := s.t + 1 }
    | (.osErr, p) => .finish { s with pending := p }

/-- Run the read loop to completion (with fuel), returning the raised
exception or the joined output (remaining buffer flushed, line 222-225)
together with the final loop state. -/
def readRun : Nat → Nat → ReadState → Option (Except PyExc (List Char) × ReadState)
  | 0, _, _ => none
  | fuel + 1, tt, s =>
    match readStep tt s with
    | .raised e s2 => some (.error e, s2)
    | .finish s2 => some (.ok (s2.chunks.flatten ++ s2.buffer), s2)
    | .next s2 => readRun fuel tt s2

/-! ### Command Executor (`execute_command`, lines 227-294, and
`_get_current_directory`, lines 344-356)

One attempt of `execute_command` is modelled over an environment record
giving the outcome of each interaction that attempt performs.
`_clear_initial_output` (lines 303-318) catches every exception and
mutates no session field, so it needs no environment entry. -/

/-- Which exceptions `except (OSError, RuntimeError)` (line 267) catches. -/
def caughtByExecHandler (e : PyExc) : Bool := isOSError e || e == PyExc.runtimeError

/-- Environment of one `execute_command` attempt: result of
`_ensure_connection`; whether `master_fd` is non-`None`; exception raised
by the `os.write` of the command, if any; result of the main output read;
exception raised by the `os.write` of the `pwd` probe, if any; and result
of the probe's short-timeout read. -/
structure AttemptEnv where
  ensureOk : Bool
  fdPresent : Bool
  sendErr : Option PyExc
  readRes : Except PyExc (List Char)
  pwdWriteErr : Option PyExc
  pwdReadRes : Except PyExc (List Char)
deriving Repr

/-- The `pwd` probe command string `"pwd\n"` (line 348). -/
def pwdCmd : List Char := ['p', 'w', 'd', '\n']

/-- `_get_current_directory` (lines 344-356): when `master_fd` is present,
write `"pwd\n"` (outside the `try`, so a write failure propagates), then
inside a `try` that catches every exception read the probe output and
clean it; a non-empty cleaned result is returned stripped, and every
other path falls back to `str(self.working_dir)`. -/
def get_current_directory (workingDir : List Char) (env : AttemptEnv) : Except PyExc (List Char) :=
  if env.fdPresent then
    match env.pwdWriteErr with
    | some e => .error e
    | none =>
      match env.pwdReadRes with
      | .error _ => .ok workingDir
      | .ok out =>
        let cleaned := clean_output pwdCmd out
        if cleaned.isEmpty then .ok workingDir else .ok (pyStrip cleaned)
  else .ok workingDir

/-- The body of one attempt of `execute_command` (lines 244-265):
`_ensure_connection` reporting failure raises
`RuntimeError("Failed to establish terminal connection")`; a `None`
`master_fd` raises `RuntimeError`; then the command write, the output
read (`_retrieve_command_output` re-raises whatever the reader raised),
the working-directory probe, and the cleaned result. -/
def execute_attempt (workingDir command : List Char) (env : AttemptEnv) :
    Except PyExc (List Char × List Char) :=
  if !env.ensureOk then .error .runtimeError
  else if !env.fdPresent then .error .runtimeError
  else
    match env.sendErr with
    | some e => .error e
    | none =>
      match env.readRes with
      | .error e => .error e
      | .ok output =>
        match get_current_directory workingDir env with
        | .error e => .error e
        | .ok cwd => .ok (cwd, clean_output command output)

/-- `execute_command` (lines 242-272): two attempts; an exception from the
first attempt that is an `OSError` or `RuntimeError` (which in Python
includes `TimeoutError` and `BlockingIOError`, both `OSError`
subclasses) leads to a 1-second sleep and a second attempt whose outcome
is returned or re-raised as is; any other exception propagates at once.
The returned number counts the attempts performed. -/
def execute_command (workingDir command : List Char) (env0 env1 : AttemptEnv) :
    Except PyExc (List Char × List Char) × Nat :=
  match execute_attempt workingDir command env0 with
  | .ok v => (.ok v, 1)
  | .error e =>
    if caughtByExecHandler e then (execute_attempt workingDir command env1, 2)
    else (.error e, 1)

/-! ### Session state: `start`, `stop`, `_ensure_connection`
(lines 43-71, 73-145, 320-342)

The session fields of `TerminalManager` are collected in `TMState`.
Environments record the outcomes of the process-level interactions
(whether the child still exists, whether `start` succeeds and with which
descriptor and pid, whether the teardown syscalls fail). -/

/-- The session fields of `TerminalManager` (lines 32-38): `master_fd`,
`slave_fd`, `shell_pid`, `_process_alive`, `_reconnect_attempts`. -/
structure TMState where
  master_fd : Option Nat
  slave_fd : Option Nat
  shell_pid : Option Nat
  process_alive : Bool
  reconnect_attempts : Nat
deriving DecidableEq, Repr

/-- The state after `__init__` (lines 29-41). -/
def initState : TMState := ⟨none, none, none, false, 0⟩

/-- Python truthiness of the optional pid (`if self.shell_pid:`):
`None` and `0` are falsy. -/
def pidTruthy : Option Nat → Bool
  | none => false
  | some p => !(p == 0)

/-- Environment of one `stop` call: whether `os.kill` finds the child gone
(`ProcessLookupError`, suppressed by line 323) and whether the two
`os.close` calls fail (`OSError`, caught and only logged). -/
structure StopEnv where
  childGone : Bool
  closeMasterFails : Bool
  closeSlaveFails : Bool
deriving DecidableEq, Repr

/-- `stop` (lines 320-342): the kill and the closes affect no session
field and their failures are absorbed, after which every session field
is unconditionally reset to the not-alive value; `_reconnect_attempts`
is not a session field of the teardown and is left unchanged. -/
def stop_state (s : TMState) (_env : StopEnv) : TMState :=
  { master_fd := none
    slave_fd := none
    shell_pid := none
    process_alive := false
    reconnect_attempts := s.reconnect_attempts }

/-- Environment of one `start` call: `some (fd, pid)` when the whole
startup sequence (openpty, fork, shell verification) succeeds, giving
the new master descriptor and child pid; `none` when any step raises. -/
structure StartEnv where
  result : Option (Nat × Nat)
deriving DecidableEq, Repr

/-- `start` (lines 73-145): on success the parent holds the new master
descriptor, has closed its slave copy (line 127-128), tracks the child
pid and is alive; on any failure the `except` block runs `stop` and
re-raises, leaving the torn-down state.  `_reconnect_attempts` is
untouched either way. -/
def start_state (s : TMState) (env : StartEnv) : TMState :=
  match env.result with
  | some (fd, pid) =>
    { master_fd := some fd
      slave_fd := none
      shell_pid := some pid
      process_alive := true
      reconnect_attempts := s.reconnect_attempts }
  | none => stop_state s ⟨false, false, false⟩

/-- Environment of one `_ensure_connection` call: whether
`os.kill(self.shell_pid, 0)` succeeds (child process exists) and the
environment of the inner `start` call if one is made. -/
structure EnsureEnv where
  childExists : Bool
  start : StartEnv
deriving DecidableEq, Repr

/-- The reconnection block of `_ensure_connection` under the lock
(lines 53-71): budget check against `MAX_RECONNECT_ATTEMPTS = 3`
returning false when exhausted; otherwise increment the counter, `stop`,
sleep, `start`.  When `start` leaves the process alive the counter is
reset to 0 and the call returns true; when `start` raises, the `except`
returns false with the state the failed `start` left behind (counter
already incremented). -/
def ensure_reconnect (s : TMState) (env : EnsureEnv) : Bool × TMState :=
  if 3 ≤ s.reconnect_attempts then (false, s)
  else
    let s1 := { s with reconnect_attempts := s.reconnect_attempts + 1 }
    let s2 := stop_state s1 ⟨false, false, false⟩
    let s3 := start_state s2 env.start
    if s3.process_alive then (true, { s3 with reconnect_attempts := 0 })
    else (false, s3)

/-- `_ensure_connection` (lines 43-71): when the session believes itself
alive and tracks a truthy pid, probe the child with signal 0 — success
returns true at once; `ProcessLookupError` marks the session not alive
and falls through to the reconnection block, as does an initially
not-alive session. -/
def ensure_connection (s : TMState) (env : EnsureEnv) : Bool × TMState :=
  if s.process_alive && pidTruthy s.shell_pid then
    if env.childExists then (true, s)
    else ensure_reconnect { s with process_alive := false } env
  else ensure_reconnect s env

/-- Environment of one `execute_command` attempt as far as the session
state is concerned: the `_ensure_connection` environment and whether the
rest of the attempt body (drain, write, read, probe, clean) runs without
raising — none of those steps assigns any session field. -/
structure ExecEnv where
  ens : EnsureEnv
  bodyOk : Bool
deriving DecidableEq, Repr

/-- The session state after one `execute_command` call (lines 242-272):
attempt one runs `_ensure_connection`; if it reported success and the
body succeeded the call returns there, and otherwise the raised
`RuntimeError`/`OSError` is caught and attempt two runs
`_ensure_connection` again, after which the call returns or re-raises
with that state. -/
def execute_state (s : TMState) (e0 e1 : ExecEnv) : TMState :=
  let r0 := ensure_connection s e0.ens
  if r0.1 && e0.bodyOk then r0.2
  else (ensure_connection r0.2 e1.ens).2

/-- The session states reachable through the public operations of the
manager: the freshly constructed state, and the states after `start`,
`stop` and `execute_command` calls under arbitrary environments. -/
inductive Reachable : TMState → Prop where
  | init : Reachable initState
  | start (s : TMState) (env : StartEnv) : Reachable s → Reachable (start_state s env)
  | stop (s : TMState) (env : StopEnv) : Reachable s → Reachable (stop_state s env)
  | exec (s : TMState) (e0 e1 : ExecEnv) : Reachable s → Reachable (execute_state s e0 e1)

/-! ### Helper lemmas and concrete scenario data -/

/-- Characters of a string literal, for readable statements. -/
def strL (s : String) : List Char := s.toList

/-- The empty needle is a substring of every string, as Python's
`'' in s` is always true. -/
theorem containsSub_nil (hay : List Char) : containsSub [] hay = true := by
  cases hay <;> simp [containsSub, List.isPrefixOf]

/-- An `_ensure_connection` environment in which the child is found dead
and the `start` of the reconnection cycle fails. -/
def deadEnsureEnv : EnsureEnv := ⟨false, ⟨none⟩⟩

/-- An `execute_command` environment whose connection check finds the
child dead and whose reconnection fails. -/
def deadExecEnv : ExecEnv := ⟨deadEnsureEnv, true⟩

/-- A session state as left by a successful `start`. -/
def sessionUp : TMState := ⟨some 5, none, some 7, true, 0⟩

/-- The session state after one `_ensure_connection` call that finds the
child dead and fails to reconnect. -/
def afterDeadCall (s : TMState) : TMState := (ensure_connection s deadEnsureEnv).2

/-- The reconnection block keeps the attempt counter within the budget. -/
theorem ensure_reconnect_attempts_le (s : TMState) (env : EnsureEnv)
    (h : s.reconnect_attempts ≤ 3) :
    (ensure_reconnect s env).2.reconnect_attempts ≤ 3 := by
  by_cases hb : 3 ≤ s.reconnect_attempts
  · simpa [ensure_reconnect, hb] using h
  · rcases env with ⟨ce, ⟨res⟩⟩
    rcases res with _ | ⟨fd, pid⟩
    · simp only [ensure_reconnect, hb, if_false, start_state, stop_state]
      simp
      omega
    · simp [ensure_reconnect, hb, start_state, stop_state]

/-- `_ensure_connection` keeps the attempt counter within the budget. -/
theorem ensure_attempts_le (s : TMState) (env : EnsureEnv)
    (h : s.reconnect_attempts ≤ 3) :
    (ensure_connection s env).2.reconnect_attempts ≤ 3 := by
  unfold ensure_connection
  by_cases h1 : (s.process_alive && pidTruthy s.shell_pid) = true
  · by_cases h2 : env.childExists = true
    · simpa [h1, h2] using h
    · simp only [h1, h2, if_true, Bool.false_eq_true, if_false]
      exact ensure_reconnect_attempts_le _ env h
  · simp only [h1, Bool.false_eq_true, if_false]
    exact ensure_reconnect_attempts_le _ env h

/-- Every state reachable through the public operations keeps the attempt
counter within the budget. -/
theorem reachable_attempts_le (s : TMState) (h : Reachable s) :
    s.reconnect_attempts ≤ 3 := by
  induction h with
  | init => decide
  | start s env _ ih =>
    rcases env with ⟨res⟩
    rcases res with _ | ⟨fd, pid⟩ <;> simpa [start_state, stop_state] using ih
  | stop s env _ ih => simpa [stop_state] using ih
  | exec s e0 e1 _ ih =>
    simp only [execute_state]
    split
    · exact ensure_attempts_le s e0.ens ih
    · exact ensure_attempts_le _ e1.ens (ensure_attempts_le s e0.ens ih)

/-- When the reconnection block reports success it has reset the attempt
counter to zero. -/
theorem ensure_reconnect_reset (s : TMState) (env : EnsureEnv)
    (htrue : (ensure_reconnect s env).1 = true) :
    (ensure_reconnect s env).2.reconnect_attempts = 0 := by
  by_cases hb : 3 ≤ s.reconnect_attempts
  · simp [ensure_reconnect, hb] at htrue
  · rcases env with ⟨ce, ⟨res⟩⟩
    rcases res with _ | ⟨fd, pid⟩
    · simp [ensure_reconnect, hb, start_state, stop_state] at htrue
    · simp [ensure_reconnect, hb, start_state, stop_state]

/-- When `_ensure_connection` does not take the early still-alive return
and reports success, the attempt counter has been reset to zero. -/
theorem ensure_reset_on_success (s : TMState) (env : EnsureEnv)
    (hcond : (s.process_alive && pidTruthy s.shell_pid && env.childExists) = false)
    (htrue : (ensure_connection s env).1 = true) :
    (ensure_connection s env).2.reconnect_attempts = 0 := by
  unfold ensure_connection at htrue ⊢
  by_cases h1 : (s.process_alive && pidTruthy s.shell_pid) = true
  · have hce : env.childExists = false := by
      rcases hb : env.childExists
      · rfl
      · rw [h1, hb] at hcond
        simp at hcond
    simp only [h1, hce, if_true, Bool.false_eq_true, if_false] at htrue ⊢
    exact ensure_reconnect_reset _ env htrue
  · simp only [h1, Bool.false_eq_true, if_false] at htrue ⊢
    exact ensure_reconnect_reset _ env htrue

/-- The reconnection block preserves the invariant that a live session
holds a master descriptor. -/
theorem ensure_reconnect_preserves_master (s : TMState) (env : EnsureEnv)
    (ih : s.process_alive = true → s.master_fd ≠ none) :
    (ensure_reconnect s env).2.process_alive = true →
      (ensure_reconnect s env).2.master_fd ≠ none := by
  by_cases hb : 3 ≤ s.reconnect_attempts
  · simpa [ensure_reconnect, hb] using ih
  · rcases env with ⟨ce, ⟨res⟩⟩
    rcases res with _ | ⟨fd, pid⟩
    · simp [ensure_reconnect, hb, start_state, stop_state]
    · simp [ensure_reconnect, hb, start_state, stop_state]

/-- `_ensure_connection` preserves the invariant that a live session holds
a master descriptor. -/
theorem ensure_preserves_master (s : TMState) (env : EnsureEnv)
    (ih : s.process_alive = true → s.master_fd ≠ none) :
    (ensure_connection s env).2.process_alive = true →
      (ensure_connection s env).2.master_fd ≠ none := by
  unfold ensure_connection
  by_cases h1 : (s.process_alive && pidTruthy s.shell_pid) = true
  · by_cases h2 : env.childExists = true
    · simpa [h1, h2] using ih
    · simp only [h1, h2, if_true, Bool.false_eq_true, if_false]
      exact ensure_reconnect_preserves_master _ env (fun hx => absurd hx (by simp))
  · simp only [h1, Bool.false_eq_true, if_false]
    exact ensure_reconnect_preserves_master s env ih

/-! ### Claims -/

/-- C1: the claim states that for command `"cmd"` and raw output
`"cmd\n$ cmd\nhello\n$ "` the cleaner returns exactly `"hello"`.  It does
not: the trailing prompt line `"$ "` is stripped to `"$"`, which no
longer contains any prompt-marker substring and is therefore kept. -/
theorem c1_counterexample :
    clean_output (strL "cmd") (strL "cmd\n$ cmd\nhello\n$ ") ≠ strL "hello" := by
  decide

/-- C1 amended: on that input the cleaner returns `"hello\n$"` — the
echoed first line and the `"$ cmd"` line are dropped, but the final
prompt line survives as `"$"` because lines are stripped before the
prompt-marker test and `"$"` contains no marker. -/
theorem c1_cleaning_amended :
    clean_output (strL "cmd") (strL "cmd\n$ cmd\nhello\n$ ") = strL "hello\n$" := by
  decide

/-- C2: the claim states a read timeout propagates immediately with no
retry.  It does not: `TimeoutError` is an `OSError` subclass, so the
`except (OSError, RuntimeError)` handler catches it on the first attempt
and retries; here the second attempt succeeds, so the timeout never
reaches the caller at all and two attempts were performed. -/
theorem c2_counterexample :
    execute_command (strL "wd") (strL "cmd")
        ⟨true, true, none, .error .timeoutError, none, .ok []⟩
        ⟨true, true, none, .ok (strL "hi"), none, .error .osError⟩
      = (.ok (strL "wd", strL "hi"), 2)
    ∧ (Except.ok (strL "wd", strL "hi") : Except PyExc (List Char × List Char))
        ≠ .error .timeoutError :=
  ⟨rfl, by simp⟩

/-- C2 amended: a timeout failure of the first attempt's read is caught by
the transient-failure handler (in Python `TimeoutError` is a subclass of
`OSError`), so `execute_command` waits and performs the second attempt,
whose outcome — including a second timeout — is what reaches the
caller. -/
theorem c2_timeout_retry_amended (wd cmd : List Char) (pw : Option PyExc)
    (pr : Except PyExc (List Char)) (env1 : AttemptEnv) :
    execute_command wd cmd ⟨true, true, none, .error .timeoutError, pw, pr⟩ env1
      = (execute_attempt wd cmd env1, 2) :=
  rfl

/-- C3: the claim states that a source emitting `"A"` at time 0 and `"B"`
at 3 seconds with `timeout = 10` yields `"AB"`.  It does not: the
2-second quiescence window elapses during the 3-second gap, so the loop
breaks at 2.1 seconds and returns `"A"`; the `"B"` is still pending. -/
theorem c3_counterexample :
    readRun 40 100 (initRead [(0, .chunk ['A']), (30, .chunk ['B'])])
      = some (.ok ['A'], ⟨21, 0, 0, [['A']], [], [(30, .chunk ['B'])]⟩)
    ∧ (['A'] : List Char) ≠ ['A', 'B'] :=
  ⟨rfl, by decide⟩

/-- C3 amended: with `"A"` at time 0, `"B"` scheduled at 3 seconds and
`timeout = 10`, the reader returns `"A"`, and only once the 2-second
quiescence window has elapsed after the last received byte (it finishes
at tick 21 = 2.1 s with the last byte read at tick 0). -/
theorem c3_quiescence_amended :
    (readRun 40 100 (initRead [(0, .chunk ['A']), (30, .chunk ['B'])])).map
        (fun r => (r.1, r.2.t, r.2.lastRead))
      = some (.ok ['A'], 21, 0)
    ∧ 20 < 21 - 0 :=
  ⟨rfl, by decide⟩

/-- C4: the reconnect counter of every reachable state stays within
`[0, 3]` and one more `_ensure_connection` call keeps it there; a call
that reconnects (rather than taking the early still-alive return) and
reports success resets the counter to 0; and in the four-consecutive-
deaths scenario the fourth call returns false without raising while the
counter never exceeds 3. -/
theorem c4_reconnect_budget (s : TMState) (env : EnsureEnv) (hs : Reachable s) :
    s.reconnect_attempts ≤ 3
    ∧ (ensure_connection s env).2.reconnect_attempts ≤ 3
    ∧ ((s.process_alive && pidTruthy s.shell_pid && env.childExists) = false →
        (ensure_connection s env).1 = true →
        (ensure_connection s env).2.reconnect_attempts = 0)
    ∧ (ensure_connection (afterDeadCall (afterDeadCall (afterDeadCall sessionUp)))
        deadEnsureEnv).1 = false
    ∧ (afterDeadCall (afterDeadCall (afterDeadCall (afterDeadCall sessionUp)))).reconnect_attempts
        = 3
    ∧ (afterDeadCall sessionUp).reconnect_attempts ≤ 3
    ∧ (afterDeadCall (afterDeadCall sessionUp)).reconnect_attempts ≤ 3
    ∧ (afterDeadCall (afterDeadCall (afterDeadCall sessionUp))).reconnect_attempts ≤ 3 := by
  have h3 := reachable_attempts_le s hs
  exact ⟨h3, ensure_attempts_le s env h3,
    fun hcond htrue => ensure_reset_on_success s env hcond htrue,
    by decide, by decide, by decide, by decide, by decide⟩

/-- C4 witness: from the freshly constructed state (reachable), a
successful reconnection lands on counter 0, within the budget. -/
theorem c4_reconnect_budget_witness :
    initState.reconnect_attempts ≤ 3
    ∧ (ensure_connection initState ⟨true, ⟨some (3, 4)⟩⟩).2.reconnect_attempts = 0 :=
  ⟨(c4_reconnect_budget initState ⟨true, ⟨some (3, 4)⟩⟩ Reachable.init).1,
   (c4_reconnect_budget initState ⟨true, ⟨some (3, 4)⟩⟩ Reachable.init).2.2.1
     (by decide) (by decide)⟩

/-- C5: `stop` never raises in the model (it is a total function: the kill
is wrapped in `suppress(ProcessLookupError)` and both closes catch
`OSError`), it unconditionally resets every session field to the
not-alive state whatever the starting state and whatever teardown
failures occur, and calling it again changes nothing. -/
theorem c5_stop_idempotent (s : TMState) (e e2 : StopEnv) :
    stop_state s e
      = ⟨none, none, none, false, s.reconnect_attempts⟩
    ∧ stop_state (stop_state s e) e2 = stop_state s e :=
  ⟨rfl, rfl⟩

/-- C6: the claim states that any failure in the pwd probe — including the
write of the probe — falls back to the configured working directory.  It
does not: the probe's `os.write` sits outside the `try`, so its failure
propagates out of `_get_current_directory`, fails both attempts and
reaches the caller instead of producing a fallback result. -/
theorem c6_counterexample :
    execute_command (strL "wd") (strL "cmd")
        ⟨true, true, none, .ok (strL "hi"), some .osError, .ok []⟩
        ⟨true, true, none, .ok (strL "hi"), some .osError, .ok []⟩
      = (.error .osError, 2)
    ∧ (Except.error PyExc.osError : Except PyExc (List Char × List Char))
        ≠ .ok (strL "wd", clean_output (strL "cmd") (strL "hi")) :=
  ⟨rfl, by simp⟩

/-- C6 amended: a failure while reading (or cleaning) the pwd probe's
output is caught inside `_get_current_directory` and the attempt
succeeds with the configured working directory as the current directory;
only a failure of the probe's write escapes and fails the attempt. -/
theorem c6_pwd_fallback_amended (wd cmd out : List Char) (e : PyExc) :
    execute_attempt wd cmd ⟨true, true, none, .ok out, none, .error e⟩
      = .ok (wd, clean_output cmd out) :=
  rfl

/-- C7: the claim states that every would-block read increments the retry
counter and that 50 such retries with no data produce a runtime error.
It does not: with a source that always raises the would-block condition,
the counter stays at 0 through more than 50 reads and the loop ends in
the absolute timeout (`TimeoutError`), not the retry-budget runtime
error. -/
theorem c7_counterexample :
    readRun 70 60 (initRead []) = some (.error .timeoutError, ⟨61, 0, 0, [], [], []⟩)
    ∧ PyExc.timeoutError ≠ PyExc.runtimeError :=
  ⟨rfl, by decide⟩

/-- C7 amended: only zero-byte reads increment the retry counter (with a
0.1-second sleep between attempts): 50 zero-byte reads with no data ever
received raise the runtime error with the counter at the 50 budget; a
single zero-byte read steps the counter by one; a would-block read
sleeps without touching the counter; and when the budget is hit with
data already received the loop breaks to return the accumulation. -/
theorem c7_retry_budget_amended :
    readRun 60 100 (initRead (List.replicate 50 ((0 : Nat), ReadEvent.empty)))
      = some (.error .runtimeError, ⟨49, 0, 50, [], [], []⟩)
    ∧ readStep 100 ⟨5, 0, 7, [], [], [(0, .empty)]⟩ = .next ⟨6, 0, 8, [], [], []⟩
    ∧ readStep 100 ⟨5, 0, 7, [], [], [(0, .blockEx)]⟩ = .next ⟨6, 0, 7, [], [], []⟩
    ∧ readStep 100 ⟨5, 0, 49, [['A']], [], [(0, .empty)]⟩
        = .finish ⟨5, 0, 50, [['A']], [], []⟩ :=
  ⟨rfl, rfl, rfl, rfl⟩

/-- C8: the claim states that a reported connection failure propagates
immediately with no further retry inside `execute_command`.  It does
not: the `RuntimeError("Failed to establish terminal connection")` is
raised inside the `try` and caught by the handler, so `execute_command`
sleeps and runs a whole second attempt — here that second attempt's
`_ensure_connection` succeeds and the call returns normally. -/
theorem c8_counterexample :
    execute_command (strL "wd") (strL "cmd")
        ⟨false, true, none, .ok [], none, .ok []⟩
        ⟨true, true, none, .ok (strL "ok2"), none, .error .osError⟩
      = (.ok (strL "wd", strL "ok2"), 2)
    ∧ (Except.ok (strL "wd", strL "ok2") : Except PyExc (List Char × List Char))
        ≠ .error .runtimeError :=
  ⟨rfl, by simp⟩

/-- C8 amended: when `_ensure_connection` reports failure on the first
attempt, the connection `RuntimeError` is caught by the generic handler
and `execute_command` performs the full second attempt (invoking
`_ensure_connection` once more); only the second attempt's outcome
propagates to the caller. -/
theorem c8_connection_retry_amended (wd cmd : List Char) (f0 : Bool)
    (s0 : Option PyExc) (r0 : Except PyExc (List Char)) (pw0 : Option PyExc)
    (pr0 : Except PyExc (List Char)) (env1 : AttemptEnv) :
    execute_command wd cmd ⟨false, f0, s0, r0, pw0, pr0⟩ env1
      = (execute_attempt wd cmd env1, 2) :=
  rfl

/-- C9: the claim states that in every reachable state the master handle
is non-null iff the session is alive.  It does not hold: start the
session, let the child die through three failed reconnection rounds
(budget exhausted), start it again directly, and let the child die once
more — the final `execute_command` marks the session not alive but the
exhausted budget makes `_ensure_connection` return before `stop`, so
the master handle stays set while `alive` is false. -/
theorem c9_counterexample :
    Reachable ⟨some 9, none, some 11, false, 3⟩
    ∧ (⟨some 9, none, some 11, false, 3⟩ : TMState).master_fd ≠ none
    ∧ (⟨some 9, none, some 11, false, 3⟩ : TMState).process_alive = false := by
  refine ⟨?_, by simp, rfl⟩
  have h1 : Reachable (start_state initState ⟨some (5, 7)⟩) :=
    Reachable.start initState ⟨some (5, 7)⟩ Reachable.init
  have h2 := Reachable.exec _ deadExecEnv deadExecEnv h1
  have h3 := Reachable.exec _ deadExecEnv deadExecEnv h2
  have h4 := Reachable.start _ (⟨some (9, 11)⟩ : StartEnv) h3
  have h5 := Reachable.exec _ deadExecEnv deadExecEnv h4
  exact (by decide :
    execute_state
      (start_state
        (execute_state
          (execute_state (start_state initState ⟨some (5, 7)⟩) deadExecEnv deadExecEnv)
          deadExecEnv deadExecEnv)
        ⟨some (9, 11)⟩)
      deadExecEnv deadExecEnv
    = (⟨some 9, none, some 11, false, 3⟩ : TMState)) ▸ h5

/-- C9 amended: one direction of the claimed invariant does hold in every
state reachable through the public operations: whenever the alive flag
is true the master handle is non-null.  (The converse fails, as the
counterexample shows.) -/
theorem c9_master_alive_amended (s : TMState) (h : Reachable s)
    (ha : s.process_alive = true) : s.master_fd ≠ none := by
  induction h with
  | init => simp [initState] at ha
  | start s env _ ih =>
    rcases env with ⟨res⟩
    rcases res with _ | ⟨fd, pid⟩
    · simp [start_state, stop_state] at ha
    · simp [start_state]
  | stop s env _ ih => simp [stop_state] at ha
  | exec s e0 e1 _ ih =>
    revert ha
    simp only [execute_state]
    split
    · exact ensure_preserves_master s e0.ens ih
    · exact ensure_preserves_master _ e1.ens (ensure_preserves_master s e0.ens ih)

/-- C9 witness: the state after a successful `start` from the fresh state
is reachable, alive, and indeed holds a master descriptor. -/
theorem c9_master_alive_witness :
    (start_state initState ⟨some (5, 7)⟩).master_fd ≠ none :=
  c9_master_alive_amended (start_state initState ⟨some (5, 7)⟩)
    (Reachable.start initState ⟨some (5, 7)⟩ Reachable.init) rfl

/-- C10: with the empty command string and a non-empty raw output, the
membership test `command in lines[0]` is vacuously true, so the cleaner
always drops the first line of the escape-stripped output and returns
the filtered remaining lines. -/
theorem c10_empty_command_drops_first (output : List Char) (h : output ≠ []) :
    clean_output [] output
      = joinNL (keptLines ((splitlines (stripAnsi output)).drop 1)) := by
  unfold clean_output
  rw [if_neg (by simpa using h)]
  cases hsl : splitlines (stripAnsi output) with
  | nil => simp
  | cons a l => simp [containsSub_nil a]

/-- C10 witness: the first line of a concrete two-line output is dropped
for the empty command. -/
theorem c10_empty_command_drops_first_witness :
    clean_output [] (strL "abc\ndef")
      = joinNL (keptLines ((splitlines (stripAnsi (strL "abc\ndef"))).drop 1)) :=
  c10_empty_command_drops_first (strL "abc\ndef") (by decide)

end VkTerminal
